import Mathlib

/-!
Verification of the frame-orchestration core of the `ookami` engine
(`crates/foxy/src/core/engine_loop.rs`).

The Stage Machine driver `Framework::next_state` is embedded directly from
the source.  The supporting modules (the `Time` fixed-timestep clock, the
`Stage` enum payloads, the `Mailbox`, the `EngineThread` wrapper and the
`RenderLoop`) are not part of the provided sources; where a claim depends
on them they are modelled from the specification, and each such definition
says so in its doc comment.

Side effects (barrier rendezvous, mailbox traffic, thread start/join,
window polling) are made explicit: every advance of the machine emits the
ordered list of effects it performs, and the external world (window poll
results, mailbox replies, elapsed wall time) is supplied by an `Env`
oracle consumed one record per advance.
-/

namespace Ookami

/-- Modelled from the spec: window messages (`foxy_window`, not in the
provided sources).  `None` is the initial value of `current_message`; all
other events are abstracted as an `Event` with a numeric code. -/
inductive WindowMessage
  | None
  | Event (code : Nat)
deriving DecidableEq, Repr

/-- Modelled from the spec: the render-to-logic reply
(`core/message.rs`, not in the provided sources) — a render-completion
acknowledgment/response value, abstracted over a numeric code. -/
inductive RenderLoopMessage
  | Response (code : Nat)
deriving DecidableEq, Repr

/-- Modelled from the spec: the logic-to-render message
(`core/message.rs`, not in the provided sources): a `RenderData` frame
request (its payload, the empty `RenderData` struct, is elided) or the
`Exit` shutdown signal. -/
inductive GameLoopMessage
  | RenderData
  | Exit
deriving DecidableEq, Repr

/-- Modelled from the spec: the Fixed-Timestep Clock (`core/time.rs`,
not in the provided sources).  Per the spec contract: `update` accumulates
elapsed wall time; `should_do_tick` reports whether one fixed step is due,
bounded by a ticks-per-frame cap; `tick` subtracts one fixed step from the
accumulator and increments a tick counter.  Time is modelled with exact
rationals.  `frameTicks` counts the ticks consumed since the last `update`
so the per-frame cap can be enforced; `update` resets it. -/
structure Time where
  fixedStep : ℚ
  maxTicks : Nat
  accum : ℚ
  frameTicks : Nat
  tickCount : Nat
deriving DecidableEq, Repr

/-- Modelled from the spec: `Time::new(rate, max)` takes the tick *rate*
(ticks per second, `128.0` in `Framework::new`), so the fixed step is its
reciprocal. -/
def Time.new (rate : ℚ) (maxTicks : Nat) : Time :=
  { fixedStep := 1 / rate, maxTicks := maxTicks, accum := 0, frameTicks := 0, tickCount := 0 }

/-- Modelled from the spec: advance the clock by the elapsed wall time. -/
def Time.update (t : Time) (delta : ℚ) : Time :=
  { t with accum := t.accum + delta, frameTicks := 0 }

/-- Modelled from the spec: a fixed tick is due when at least one fixed
step has accumulated and the per-frame cap has not been hit. -/
def Time.should_do_tick (t : Time) : Bool :=
  decide (t.fixedStep ≤ t.accum) && decide (t.frameTicks < t.maxTicks)

/-- Modelled from the spec: consume one fixed tick — subtract one fixed
step from the accumulator and increment the tick counters. -/
def Time.tick (t : Time) : Time :=
  { t with
    accum := t.accum - t.fixedStep
    frameTicks := t.frameTicks + 1
    tickCount := t.tickCount + 1 }

/-- The frame phases, `Stage` in the source.  The shared-state (`foxy`)
references carried by the Rust variants are owned by the machine itself
here; the message and render-response references become the values they
point at. -/
inductive Stage
  | Initialize
  | Start
  | BeginFrame (message : WindowMessage)
  | EarlyUpdate (message : WindowMessage)
  | FixedUpdate
  | Update (message : WindowMessage)
  | EndFrame (message : WindowMessage) (render_response : RenderLoopMessage)
  | Exiting
  | ExitLoop
deriving DecidableEq, Repr

/-- `StageDiscriminants`: the payload-free tags of `Stage`. -/
inductive StageDiscriminants
  | Initialize
  | Start
  | BeginFrame
  | EarlyUpdate
  | FixedUpdate
  | Update
  | EndFrame
  | Exiting
  | ExitLoop
deriving DecidableEq, Repr

/-- `StageDiscriminants::from(&Stage)`. -/
def StageDiscriminants.fromStage : Stage → StageDiscriminants
  | Stage.Initialize => StageDiscriminants.Initialize
  | Stage.Start => StageDiscriminants.Start
  | Stage.BeginFrame _ => StageDiscriminants.BeginFrame
  | Stage.EarlyUpdate _ => StageDiscriminants.EarlyUpdate
  | Stage.FixedUpdate => StageDiscriminants.FixedUpdate
  | Stage.Update _ => StageDiscriminants.Update
  | Stage.EndFrame _ _ => StageDiscriminants.EndFrame
  | Stage.Exiting => StageDiscriminants.Exiting
  | Stage.ExitLoop => StageDiscriminants.ExitLoop

/-- `Polling` strategy (`foxy_types::behavior::Polling`). -/
inductive Polling
  | Poll
  | Wait
deriving DecidableEq, Repr

/-- The mutable state of `Framework` that the claims concern: the current
stage, the stored window message and the logic-side clock.  The render
thread, mailbox and barrier are modelled through the emitted effects. -/
structure Framework where
  polling_strategy : Polling
  current_stage : StageDiscriminants
  current_message : WindowMessage
  time : Time
deriving DecidableEq, Repr

/-- One advance's worth of the outside world:
`window_message` is what `next_window_message` (window `wait`/`next`,
per the polling strategy) returns if consulted this advance;
`render_response` is `some r` when `send_and_wait` succeeds with reply `r`
and `none` when it fails because the peer disconnected;
`delta` is the wall time `Time.update` observes this advance. -/
structure Env where
  window_message : Option WindowMessage
  render_response : Option RenderLoopMessage
  delta : ℚ
deriving DecidableEq, Repr

/-- The observable side effects of one advance, in program order. -/
inductive Effect
  | runRenderThread
  | pollWindow (result : Option WindowMessage)
  | barrierWait
  | clockUpdate (delta : ℚ)
  | sendRenderData
  | sendExit
  | joinRenderThread
deriving DecidableEq, Repr

/-- `self.current_stage = StageDiscriminants::from(&new_state); Some(new_state)` —
the common tail of every non-terminal arm of `next_state`. -/
def yieldStage (s : Stage) (fw : Framework) (effs : List Effect) :
    Option Stage × Framework × List Effect :=
  (Option.some s, { fw with current_stage := StageDiscriminants.fromStage s }, effs)

/-- `Framework::next_state` (engine_loop.rs lines 96–199), embedded
arm-for-arm.  Each arm matches on the PREVIOUS stage, exactly as the
source comment warns.  The returned triple is (yielded stage or end of
sequence, updated framework, effects performed in order). -/
def next_state (fw : Framework) (env : Env) : Option Stage × Framework × List Effect :=
  match fw.current_stage with
  | StageDiscriminants.Initialize =>
      -- Start
      yieldStage Stage.Start fw [Effect.runRenderThread]
  | StageDiscriminants.Start =>
      -- Begin Frame / Exiting
      (match env.window_message with
       | Option.some message =>
          yieldStage (Stage.BeginFrame message)
            { fw with current_message := message }
            [Effect.pollWindow (Option.some message)]
       | Option.none =>
          yieldStage Stage.Exiting fw [Effect.pollWindow Option.none])
  | StageDiscriminants.BeginFrame =>
      -- Early Update
      yieldStage (Stage.EarlyUpdate fw.current_message)
        { fw with time := fw.time.update env.delta }
        [Effect.barrierWait, Effect.clockUpdate env.delta]
  | StageDiscriminants.EarlyUpdate =>
      -- Fixed Update / Update
      if fw.time.should_do_tick then
        yieldStage Stage.FixedUpdate { fw with time := fw.time.tick } []
      else
        yieldStage (Stage.Update fw.current_message) fw []
  | StageDiscriminants.FixedUpdate =>
      -- Fixed Update / Update
      if fw.time.should_do_tick then
        yieldStage Stage.FixedUpdate { fw with time := fw.time.tick } []
      else
        yieldStage (Stage.Update fw.current_message) fw []
  | StageDiscriminants.Update =>
      -- End Frame
      (match env.render_response with
       | Option.some render_response =>
          yieldStage (Stage.EndFrame fw.current_message render_response) fw
            [Effect.sendRenderData]
       | Option.none =>
          yieldStage Stage.Exiting fw [Effect.sendRenderData])
  | StageDiscriminants.EndFrame =>
      -- Begin Frame / Exiting
      (match env.window_message with
       | Option.some message =>
          yieldStage (Stage.BeginFrame message)
            { fw with current_message := message }
            [Effect.pollWindow (Option.some message)]
       | Option.none =>
          yieldStage Stage.Exiting fw [Effect.pollWindow Option.none])
  | StageDiscriminants.Exiting =>
      -- Exit Loop
      yieldStage Stage.ExitLoop fw
        [Effect.sendExit, Effect.barrierWait, Effect.joinRenderThread]
  | StageDiscriminants.ExitLoop =>
      -- Never gets sent to clients
      (Option.none, fw, [])

/-- `Iterator::next` for `Framework`: the source forwards to `next_state`
through a lifetime-erasing transmute that is the identity on the value. -/
def Framework.next (fw : Framework) (env : Env) : Option Stage × Framework × List Effect :=
  next_state fw env

/-- The framework as `Framework::new` constructs it: initial stage
`Initialize`, initial message `WindowMessage::None`, clock
`Time::new(128.0, 1024)`. -/
def Framework.new (strategy : Polling) : Framework :=
  { polling_strategy := strategy
    current_stage := StageDiscriminants.Initialize
    current_message := WindowMessage.None
    time := Time.new 128 1024 }

/-- Drive the machine through a list of per-advance environments,
returning the final framework and the concatenated effect trace. -/
def run : Framework → List Env → Framework × List Effect
  | fw, [] => (fw, [])
  | fw, e :: es =>
      ((run (next_state fw e).2.1 es).1,
       (next_state fw e).2.2 ++ (run (next_state fw e).2.1 es).2)

/-- The stages yielded while driving the machine through a list of
per-advance environments (advances that return end-of-sequence yield
nothing). -/
def stages : Framework → List Env → List Stage
  | _, [] => []
  | fw, e :: es =>
      match next_state fw e with
      | (Option.some s, fw1, _) => s :: stages fw1 es
      | (Option.none, fw1, _) => stages fw1 es

/-- Occurrences of one effect in a trace. -/
def countEffect (x : Effect) : List Effect → Nat
  | [] => 0
  | e :: es => (if e = x then 1 else 0) + countEffect x es

/-- The logic-to-render messages a trace sends, in order. -/
def sentMessages : List Effect → List GameLoopMessage
  | [] => []
  | Effect.sendRenderData :: es => GameLoopMessage.RenderData :: sentMessages es
  | Effect.sendExit :: es => GameLoopMessage.Exit :: sentMessages es
  | _ :: es => sentMessages es

/-- Modelled from the spec: the Render-Side Loop (`core/render_loop.rs`,
not in the provided sources).  Per iteration it rendezvouses the barrier
and then blocks on one mailbox message; on `RenderData` it replies and
loops, on `Exit` it breaks.  Given the stream of messages it will
receive, this is the number of barrier rendezvous calls it makes. -/
def renderLoopBarrierCalls : List GameLoopMessage → Nat
  | [] => 0
  | GameLoopMessage.Exit :: _ => 1
  | GameLoopMessage.RenderData :: rest => 1 + renderLoopBarrierCalls rest

/-- The barrier-rendezvous debt the driver carries inside a frame: stages
between the `BeginFrame → EarlyUpdate` rendezvous and the `Update` send
have rendezvoused once more than they have sent `RenderData`, as has the
terminal stage after the final `Exiting` rendezvous. -/
def barrierOffset : StageDiscriminants → Nat
  | StageDiscriminants.Initialize => 0
  | StageDiscriminants.Start => 0
  | StageDiscriminants.BeginFrame => 0
  | StageDiscriminants.EarlyUpdate => 1
  | StageDiscriminants.FixedUpdate => 1
  | StageDiscriminants.Update => 1
  | StageDiscriminants.EndFrame => 0
  | StageDiscriminants.Exiting => 0
  | StageDiscriminants.ExitLoop => 1

/-- The trailing `Exit` message a run has sent exactly when it has reached
the terminal stage. -/
def exitTail : StageDiscriminants → List GameLoopMessage
  | StageDiscriminants.Initialize => []
  | StageDiscriminants.Start => []
  | StageDiscriminants.BeginFrame => []
  | StageDiscriminants.EarlyUpdate => []
  | StageDiscriminants.FixedUpdate => []
  | StageDiscriminants.Update => []
  | StageDiscriminants.EndFrame => []
  | StageDiscriminants.Exiting => []
  | StageDiscriminants.ExitLoop => [GameLoopMessage.Exit]

/-- The successor relation of the claimed frame cycle
`BeginFrame → EarlyUpdate → {FixedUpdate*} → Update → EndFrame → BeginFrame`,
with `Start` feeding the first `BeginFrame`. -/
def cyclicNext : StageDiscriminants → StageDiscriminants → Prop := fun a b =>
  match a, b with
  | StageDiscriminants.Start, StageDiscriminants.BeginFrame => True
  | StageDiscriminants.BeginFrame, StageDiscriminants.EarlyUpdate => True
  | StageDiscriminants.EarlyUpdate, StageDiscriminants.FixedUpdate => True
  | StageDiscriminants.EarlyUpdate, StageDiscriminants.Update => True
  | StageDiscriminants.FixedUpdate, StageDiscriminants.FixedUpdate => True
  | StageDiscriminants.FixedUpdate, StageDiscriminants.Update => True
  | StageDiscriminants.Update, StageDiscriminants.EndFrame => True
  | StageDiscriminants.EndFrame, StageDiscriminants.BeginFrame => True
  | _, _ => False

/-- A concrete framework state whose previous phase is `Start`. -/
def fwStart : Framework :=
  { polling_strategy := Polling.Poll
    current_stage := StageDiscriminants.Start
    current_message := WindowMessage.None
    time := Time.new 128 1024 }

/-- A concrete framework state whose previous phase is `EarlyUpdate`. -/
def fwEarly : Framework :=
  { fwStart with current_stage := StageDiscriminants.EarlyUpdate }

/-- A concrete framework state whose previous phase is `Update`. -/
def fwUpdate : Framework :=
  { fwStart with
    current_stage := StageDiscriminants.Update
    current_message := WindowMessage.Event 7 }

/-- A concrete framework state whose previous phase is `Exiting`. -/
def fwExiting : Framework :=
  { fwStart with current_stage := StageDiscriminants.Exiting }

/-- A concrete framework state whose previous phase is `ExitLoop`. -/
def fwExitLoop : Framework :=
  { fwStart with current_stage := StageDiscriminants.ExitLoop }

/-- An environment with an input event available, a live render peer and
a given wall delta. -/
def deltaEnv (d : ℚ) : Env :=
  { window_message := Option.some (WindowMessage.Event 0)
    render_response := Option.some (RenderLoopMessage.Response 0)
    delta := d }

/-- An environment whose window has closed but whose render peer is
alive. -/
def envClosed : Env :=
  { window_message := Option.none
    render_response := Option.some (RenderLoopMessage.Response 0)
    delta := 0 }

/-- An environment whose mailbox peer has disconnected while the window
still has an event available. -/
def envPeerGone : Env :=
  { window_message := Option.some (WindowMessage.Event 7)
    render_response := Option.none
    delta := 0 }

/-- The C8 scenario inputs: the wall delta sequence [0.031 s], observed on
the one advance that updates the clock; events always available. -/
def scenarioEnvs : List Env :=
  [deltaEnv 0, deltaEnv 0, deltaEnv (31/1000), deltaEnv 0, deltaEnv 0, deltaEnv 0, deltaEnv 0]

/-- Inputs for the shortest complete run: first advance starts the render
thread, the second observes the closed window, the third shuts down. -/
def esShutdown : List Env :=
  [deltaEnv 0, envClosed, deltaEnv 0]

theorem countEffect_append (x : Effect) (l1 l2 : List Effect) :
    countEffect x (l1 ++ l2) = countEffect x l1 + countEffect x l2 := by
  induction l1 with
  | nil => simp [countEffect]
  | cons e l ih => simp [countEffect, ih]; omega

theorem sentMessages_append (l1 l2 : List Effect) :
    sentMessages (l1 ++ l2) = sentMessages l1 ++ sentMessages l2 := by
  induction l1 with
  | nil => simp [sentMessages]
  | cons e l ih => cases e <;> simp [sentMessages, ih]

/-- The terminal stage absorbs: driving the machine from `ExitLoop`
changes nothing and performs nothing. -/
theorem run_from_exitLoop (es : List Env) (fw : Framework)
    (h : fw.current_stage = StageDiscriminants.ExitLoop) :
    run fw es = (fw, []) := by
  induction es with
  | nil => simp [run]
  | cons e es ih => simp [run, next_state, h, ih]

/-- Invariant of any run segment that starts short of the terminal stage:
barrier rendezvous performed and `RenderData` requests sent stay balanced
up to the per-stage offset, and the messages sent are exactly the
`RenderData` requests followed by one `Exit` upon reaching the terminal
stage. -/
theorem run_barrier_invariant (es : List Env) : ∀ fw : Framework,
    (∀ e ∈ es, e.render_response ≠ Option.none) →
    fw.current_stage ≠ StageDiscriminants.ExitLoop →
    countEffect Effect.barrierWait (run fw es).2 + barrierOffset fw.current_stage =
      countEffect Effect.sendRenderData (run fw es).2 +
        barrierOffset (run fw es).1.current_stage ∧
    sentMessages (run fw es).2 =
      List.replicate (countEffect Effect.sendRenderData (run fw es).2)
          GameLoopMessage.RenderData ++
        exitTail (run fw es).1.current_stage := by
  induction es with
  | nil =>
    intro fw _ hfw
    cases hs : fw.current_stage <;>
      simp_all [run, countEffect, sentMessages, exitTail]
  | cons e es ih =>
    intro fw hok hfw
    have hok1 : ∀ x ∈ es, x.render_response ≠ Option.none := fun x hx =>
      hok x (List.mem_cons_of_mem _ hx)
    have hokh : e.render_response ≠ Option.none := hok e (List.mem_cons_self _ _)
    cases hs : fw.current_stage
    case ExitLoop => exact absurd hs hfw
    case Exiting =>
      have hT : (next_state fw e).2.1.current_stage = StageDiscriminants.ExitLoop := by
        simp [next_state, hs, yieldStage, StageDiscriminants.fromStage]
      have hE : (next_state fw e).2.2 =
          [Effect.sendExit, Effect.barrierWait, Effect.joinRenderThread] := by
        simp [next_state, hs, yieldStage]
      have habs := run_from_exitLoop es (next_state fw e).2.1 hT
      simp only [run, habs, countEffect_append, sentMessages_append, hE, hT,
        countEffect, sentMessages, barrierOffset, exitTail]
      simp
    case Initialize =>
      have hT : (next_state fw e).2.1.current_stage = StageDiscriminants.Start := by
        simp [next_state, hs, yieldStage, StageDiscriminants.fromStage]
      have hE : (next_state fw e).2.2 = [Effect.runRenderThread] := by
        simp [next_state, hs, yieldStage]
      obtain ⟨ih1, ih2⟩ := ih (next_state fw e).2.1 hok1 (by simp [hT])
      rw [hT] at ih1
      simp only [run, countEffect_append, sentMessages_append, hE,
        countEffect, sentMessages, barrierOffset] at ih1 ⊢
      constructor
      · simp at ih1 ⊢
        omega
      · simpa using ih2
    case BeginFrame =>
      have hT : (next_state fw e).2.1.current_stage = StageDiscriminants.EarlyUpdate := by
        simp [next_state, hs, yieldStage, StageDiscriminants.fromStage]
      have hE : (next_state fw e).2.2 = [Effect.barrierWait, Effect.clockUpdate e.delta] := by
        simp [next_state, hs, yieldStage]
      obtain ⟨ih1, ih2⟩ := ih (next_state fw e).2.1 hok1 (by simp [hT])
      rw [hT] at ih1
      simp only [run, countEffect_append, sentMessages_append, hE,
        countEffect, sentMessages, barrierOffset] at ih1 ⊢
      constructor
      · simp at ih1 ⊢
        omega
      · simpa using ih2
    case Start =>
      cases hwm : e.window_message with
      | some m =>
        have hT : (next_state fw e).2.1.current_stage = StageDiscriminants.BeginFrame := by
          simp [next_state, hs, hwm, yieldStage, StageDiscriminants.fromStage]
        have hE : (next_state fw e).2.2 = [Effect.pollWindow (Option.some m)] := by
          simp [next_state, hs, hwm, yieldStage]
        obtain ⟨ih1, ih2⟩ := ih (next_state fw e).2.1 hok1 (by simp [hT])
        rw [hT] at ih1
        simp only [run, countEffect_append, sentMessages_append, hE,
          countEffect, sentMessages, barrierOffset] at ih1 ⊢
        constructor
        · simp at ih1 ⊢
          omega
        · simpa using ih2
      | none =>
        have hT : (next_state fw e).2.1.current_stage = StageDiscriminants.Exiting := by
          simp [next_state, hs, hwm, yieldStage, StageDiscriminants.fromStage]
        have hE : (next_state fw e).2.2 = [Effect.pollWindow Option.none] := by
          simp [next_state, hs, hwm, yieldStage]
        obtain ⟨ih1, ih2⟩ := ih (next_state fw e).2.1 hok1 (by simp [hT])
        rw [hT] at ih1
        simp only [run, countEffect_append, sentMessages_append, hE,
          countEffect, sentMessages, barrierOffset] at ih1 ⊢
        constructor
        · simp at ih1 ⊢
          omega
        · simpa using ih2
    case EndFrame =>
      cases hwm : e.window_message with
      | some m =>
        have hT : (next_state fw e).2.1.current_stage = StageDiscriminants.BeginFrame := by
          simp [next_state, hs, hwm, yieldStage, StageDiscriminants.fromStage]
        have hE : (next_state fw e).2.2 = [Effect.pollWindow (Option.some m)] := by
          simp [next_state, hs, hwm, yieldStage]
        obtain ⟨ih1, ih2⟩ := ih (next_state fw e).2.1 hok1 (by simp [hT])
        rw [hT] at ih1
        simp only [run, countEffect_append, sentMessages_append, hE,
          countEffect, sentMessages, barrierOffset] at ih1 ⊢
        constructor
        · simp at ih1 ⊢
          omega
        · simpa using ih2
      | none =>
        have hT : (next_state fw e).2.1.current_stage = StageDiscriminants.Exiting := by
          simp [next_state, hs, hwm, yieldStage, StageDiscriminants.fromStage]
        have hE : (next_state fw e).2.2 = [Effect.pollWindow Option.none] := by
          simp [next_state, hs, hwm, yieldStage]
        obtain ⟨ih1, ih2⟩ := ih (next_state fw e).2.1 hok1 (by simp [hT])
        rw [hT] at ih1
        simp only [run, countEffect_append, sentMessages_append, hE,
          countEffect, sentMessages, barrierOffset] at ih1 ⊢
        constructor
        · simp at ih1 ⊢
          omega
        · simpa using ih2
    case EarlyUpdate =>
      cases ht : fw.time.should_do_tick with
      | true =>
        have hT : (next_state fw e).2.1.current_stage = StageDiscriminants.FixedUpdate := by
          simp [next_state, hs, ht, yieldStage, StageDiscriminants.fromStage]
        have hE : (next_state fw e).2.2 = [] := by
          simp [next_state, hs, ht, yieldStage]
        obtain ⟨ih1, ih2⟩ := ih (next_state fw e).2.1 hok1 (by simp [hT])
        rw [hT] at ih1
        simp only [run, countEffect_append, sentMessages_append, hE,
          countEffect, sentMessages, barrierOffset] at ih1 ⊢
        constructor
        · simp at ih1 ⊢
          omega
        · simpa using ih2
      | false =>
        have hT : (next_state fw e).2.1.current_stage = StageDiscriminants.Update := by
          simp [next_state, hs, ht, yieldStage, StageDiscriminants.fromStage]
        have hE : (next_state fw e).2.2 = [] := by
          simp [next_state, hs, ht, yieldStage]
        obtain ⟨ih1, ih2⟩ := ih (next_state fw e).2.1 hok1 (by simp [hT])
        rw [hT] at ih1
        simp only [run, countEffect_append, sentMessages_append, hE,
          countEffect, sentMessages, barrierOffset] at ih1 ⊢
        constructor
        · simp at ih1 ⊢
          omega
        · simpa using ih2
    case FixedUpdate =>
      cases ht : fw.time.should_do_tick with
      | true =>
        have hT : (next_state fw e).2.1.current_stage = StageDiscriminants.FixedUpdate := by
          simp [next_state, hs, ht, yieldStage, StageDiscriminants.fromStage]
        have hE : (next_state fw e).2.2 = [] := by
          simp [next_state, hs, ht, yieldStage]
        obtain ⟨ih1, ih2⟩ := ih (next_state fw e).2.1 hok1 (by simp [hT])
        rw [hT] at ih1
        simp only [run, countEffect_append, sentMessages_append, hE,
          countEffect, sentMessages, barrierOffset] at ih1 ⊢
        constructor
        · simp at ih1 ⊢
          omega
        · simpa using ih2
      | false =>
        have hT : (next_state fw e).2.1.current_stage = StageDiscriminants.Update := by
          simp [next_state, hs, ht, yieldStage, StageDiscriminants.fromStage]
        have hE : (next_state fw e).2.2 = [] := by
          simp [next_state, hs, ht, yieldStage]
        obtain ⟨ih1, ih2⟩ := ih (next_state fw e).2.1 hok1 (by simp [hT])
        rw [hT] at ih1
        simp only [run, countEffect_append, sentMessages_append, hE,
          countEffect, sentMessages, barrierOffset] at ih1 ⊢
        constructor
        · simp at ih1 ⊢
          omega
        · simpa using ih2
    case Update =>
      cases hrr : e.render_response with
      | none => exact absurd hrr hokh
      | some r =>
        have hT : (next_state fw e).2.1.current_stage = StageDiscriminants.EndFrame := by
          simp [next_state, hs, hrr, yieldStage, StageDiscriminants.fromStage]
        have hE : (next_state fw e).2.2 = [Effect.sendRenderData] := by
          simp [next_state, hs, hrr, yieldStage]
        obtain ⟨ih1, ih2⟩ := ih (next_state fw e).2.1 hok1 (by simp [hT])
        rw [hT] at ih1
        simp only [run, countEffect_append, sentMessages_append, hE,
          countEffect, sentMessages, barrierOffset] at ih1 ⊢
        constructor
        · simp at ih1 ⊢
          omega
        · rw [ih2]
          simp [List.replicate_add]

/-- Modelled from the spec: the render loop rendezvouses once per message
it receives up to and including `Exit`, so a stream of `n` frame requests
closed by `Exit` costs `n + 1` rendezvous. -/
theorem renderLoopBarrierCalls_replicate (n : Nat) :
    renderLoopBarrierCalls
      (List.replicate n GameLoopMessage.RenderData ++ [GameLoopMessage.Exit]) = n + 1 := by
  induction n with
  | zero => simp [renderLoopBarrierCalls]
  | succ n ih => simp [List.replicate_succ, renderLoopBarrierCalls, ih]; omega

/-- Claim C1: in any advance on which the exit condition is not hit (an
input event is available and the mailbox request succeeds), from any phase
of the frame cycle the machine yields a phase, records its discriminant as
the new current stage, and that successor lies exactly on the cyclic order
`Start/EndFrame → BeginFrame → EarlyUpdate → FixedUpdate* → Update →
EndFrame`; no other successor is possible. -/
theorem claim1_cyclic_order (fw : Framework) (env : Env) (m : WindowMessage)
    (r : RenderLoopMessage)
    (hm : env.window_message = Option.some m)
    (hr : env.render_response = Option.some r)
    (h1 : fw.current_stage ≠ StageDiscriminants.Initialize)
    (h2 : fw.current_stage ≠ StageDiscriminants.Exiting)
    (h3 : fw.current_stage ≠ StageDiscriminants.ExitLoop) :
    ∃ s, (next_state fw env).1 = Option.some s ∧
      (next_state fw env).2.1.current_stage = StageDiscriminants.fromStage s ∧
      cyclicNext fw.current_stage (StageDiscriminants.fromStage s) := by
  cases hs : fw.current_stage <;>
    simp_all [next_state, yieldStage, StageDiscriminants.fromStage, cyclicNext] <;>
    split <;>
    simp [StageDiscriminants.fromStage, cyclicNext]

/-- Claim C2: advancing out of `Update`, a failed `send_and_wait` (peer
disconnected) yields the `Exiting` phase normally — no error reaches the
caller — while a successful one yields `EndFrame` carrying the received
render response; in both cases the only side effect is the send itself. -/
theorem claim2_update_mailbox (fw : Framework) (env : Env)
    (h : fw.current_stage = StageDiscriminants.Update) :
    (env.render_response = Option.none →
      next_state fw env =
        (Option.some Stage.Exiting,
         { fw with current_stage := StageDiscriminants.Exiting },
         [Effect.sendRenderData])) ∧
    (∀ r, env.render_response = Option.some r →
      next_state fw env =
        (Option.some (Stage.EndFrame fw.current_message r),
         { fw with current_stage := StageDiscriminants.EndFrame },
         [Effect.sendRenderData])) := by
  constructor
  · intro hr
    simp [next_state, h, hr, yieldStage, StageDiscriminants.fromStage]
  · intro r hr
    simp [next_state, h, hr, yieldStage, StageDiscriminants.fromStage]

/-- Claim C3: advancing out of `Exiting` performs, in this exact order,
the `Exit` send (once), one barrier rendezvous and the render-thread
join, yields `ExitLoop`, and the very next advance ends the sequence
(returns no stage) leaving the state untouched. -/
theorem claim3_exiting_shutdown (fw : Framework) (env : Env)
    (h : fw.current_stage = StageDiscriminants.Exiting) :
    next_state fw env =
      (Option.some Stage.ExitLoop,
       { fw with current_stage := StageDiscriminants.ExitLoop },
       [Effect.sendExit, Effect.barrierWait, Effect.joinRenderThread]) ∧
    (∀ env2, next_state { fw with current_stage := StageDiscriminants.ExitLoop } env2 =
       (Option.none, { fw with current_stage := StageDiscriminants.ExitLoop }, [])) := by
  constructor
  · simp [next_state, h, yieldStage, StageDiscriminants.fromStage]
  · intro env2
    simp [next_state]

/-- Claim C4: from previous phase `EarlyUpdate` or `FixedUpdate`, the next
stage is `FixedUpdate` exactly when the clock reports a tick is due; in
that case one fixed step is subtracted from the accumulator and the tick
counter is incremented (one consumption per `FixedUpdate`), otherwise the
next stage is `Update` and the clock is untouched. -/
theorem claim4_fixed_tick_consumption (fw : Framework) (env : Env)
    (h : fw.current_stage = StageDiscriminants.EarlyUpdate ∨
         fw.current_stage = StageDiscriminants.FixedUpdate) :
    ((next_state fw env).2.1.current_stage = StageDiscriminants.FixedUpdate ↔
       fw.time.should_do_tick = true) ∧
    (fw.time.should_do_tick = true →
      (next_state fw env).2.1.time.accum = fw.time.accum - fw.time.fixedStep ∧
      (next_state fw env).2.1.time.tickCount = fw.time.tickCount + 1) ∧
    (fw.time.should_do_tick = false →
      (next_state fw env).2.1.current_stage = StageDiscriminants.Update ∧
      (next_state fw env).2.1.time = fw.time) := by
  rcases h with h | h <;>
    rcases ht : fw.time.should_do_tick <;>
    simp [next_state, h, ht, yieldStage, StageDiscriminants.fromStage, Time.tick]

/-- Claim C5: if the window poll returns no event while the previous phase
is `Start` or `EndFrame`, this advance yields `Exiting`; the next advance
yields `ExitLoop` with the render thread joined among its effects, and the
advance after that ends the sequence — two further advances, with the join
before the end. -/
theorem claim5_window_close_shutdown (fw : Framework) (env : Env)
    (env2 env3 : Env)
    (h : fw.current_stage = StageDiscriminants.Start ∨
         fw.current_stage = StageDiscriminants.EndFrame)
    (hw : env.window_message = Option.none) :
    (next_state fw env).1 = Option.some Stage.Exiting ∧
    (next_state fw env).2.1.current_stage = StageDiscriminants.Exiting ∧
    (next_state (next_state fw env).2.1 env2).1 = Option.some Stage.ExitLoop ∧
    Effect.joinRenderThread ∈ (next_state (next_state fw env).2.1 env2).2.2 ∧
    (next_state (next_state (next_state fw env).2.1 env2).2.1 env3).1 = Option.none := by
  rcases h with h | h <;>
    simp [next_state, h, hw, yieldStage, StageDiscriminants.fromStage]

/-- Claim C6: over a complete lifetime in which the render peer stays
connected (every `send_and_wait` is answered), the driver's total barrier
rendezvous count equals the number of rendezvous the render-side loop
performs for the message stream the driver sent it: both are (number of
frames) + 1.  The render-side count is modelled from the spec (§4.5). -/
theorem claim6_barrier_parity (strategy : Polling) (es : List Env)
    (halive : ∀ e ∈ es, e.render_response ≠ Option.none)
    (hdone : (run (Framework.new strategy) es).1.current_stage =
      StageDiscriminants.ExitLoop) :
    countEffect Effect.barrierWait (run (Framework.new strategy) es).2 =
      renderLoopBarrierCalls
        (sentMessages (run (Framework.new strategy) es).2) := by
  obtain ⟨h1, h2⟩ :=
    run_barrier_invariant es (Framework.new strategy) halive (by simp [Framework.new])
  rw [hdone] at h1 h2
  have hinit : barrierOffset (Framework.new strategy).current_stage = 0 := rfl
  rw [hinit] at h1
  simp only [barrierOffset, exitTail] at h1 h2
  rw [h2, renderLoopBarrierCalls_replicate]
  omega

/-- Claim C7 counterexample: with the previous phase `Update` and the
mailbox peer disconnected, the machine transitions to `Exiting` on an
advance whose only effect is the failed `RenderData` send — the window is
not consulted at all (no poll effect in the trace) and the poll oracle
even has an event available. -/
theorem claim7_counterexample :
    (next_state fwUpdate envPeerGone).2.1.current_stage = StageDiscriminants.Exiting ∧
    envPeerGone.window_message = Option.some (WindowMessage.Event 7) ∧
    (next_state fwUpdate envPeerGone).2.2 = [Effect.sendRenderData] := by
  refine ⟨?_, rfl, ?_⟩ <;>
    simp [next_state, fwUpdate, envPeerGone, yieldStage, StageDiscriminants.fromStage]

/-- Claim C7 as amended: a transition into `Exiting` is caused either by
the window poll returning no event (previous phase `Start` or `EndFrame`)
or by the mailbox `send_and_wait` failing (previous phase `Update`); these
are the only causes. -/
theorem claim7_exiting_causes (fw : Framework) (env : Env)
    (h : (next_state fw env).2.1.current_stage = StageDiscriminants.Exiting) :
    ((fw.current_stage = StageDiscriminants.Start ∨
        fw.current_stage = StageDiscriminants.EndFrame) ∧
      env.window_message = Option.none) ∨
    (fw.current_stage = StageDiscriminants.Update ∧
      env.render_response = Option.none) := by
  cases hs : fw.current_stage <;>
    rcases hwm : env.window_message with _ | m <;>
    rcases hrr : env.render_response with _ | r <;>
    rcases ht : fw.time.should_do_tick <;>
    simp_all [next_state, yieldStage, StageDiscriminants.fromStage]

/-- Claim C8: with the parameters `Framework::new` uses (fixed step
1/128 s, max ticks 1024) and a single 0.031 s wall delta observed when the
clock advances, the machine yields exactly three consecutive `FixedUpdate`
phases between `EarlyUpdate` and `Update` (0.031 / 0.0078125 ≈ 3.97, so
three full consumptions).  The clock is modelled from the spec. -/
theorem claim8_three_fixed_ticks :
    (stages (Framework.new Polling.Poll) scenarioEnvs).map StageDiscriminants.fromStage =
      [StageDiscriminants.Start, StageDiscriminants.BeginFrame,
       StageDiscriminants.EarlyUpdate, StageDiscriminants.FixedUpdate,
       StageDiscriminants.FixedUpdate, StageDiscriminants.FixedUpdate,
       StageDiscriminants.Update] := by
  norm_num [stages, next_state, yieldStage, Framework.new, Time.new, Time.update,
    Time.should_do_tick, Time.tick, StageDiscriminants.fromStage, scenarioEnvs, deltaEnv]

/-- Claim C9: once the previous phase is `ExitLoop`, `next` returns
end-of-sequence, leaves the whole framework untouched (so the stage stays
`ExitLoop` and every later call behaves identically) and performs no side
effect. -/
theorem claim9_exhausted_total (fw : Framework) (env : Env)
    (h : fw.current_stage = StageDiscriminants.ExitLoop) :
    Framework.next fw env = (Option.none, fw, []) ∧
    (Framework.next fw env).2.1.current_stage = StageDiscriminants.ExitLoop := by
  constructor <;> simp [Framework.next, next_state, h]

/-- No advance ever makes `Initialize` the current stage again. -/
theorem next_state_target_ne_initial (fw : Framework) (env : Env) :
    (next_state fw env).2.1.current_stage ≠ StageDiscriminants.Initialize := by
  cases hs : fw.current_stage <;>
    rcases hwm : env.window_message with _ | m <;>
    rcases hrr : env.render_response with _ | r <;>
    rcases ht : fw.time.should_do_tick <;>
    simp_all [next_state, yieldStage, StageDiscriminants.fromStage]

/-- No advance ever yields the `Initialize` phase. -/
theorem next_state_never_yields_initial (fw : Framework) (env : Env) (s : Stage)
    (h : (next_state fw env).1 = Option.some s) : s ≠ Stage.Initialize := by
  cases hs : fw.current_stage <;>
    rcases hwm : env.window_message with _ | m <;>
    rcases hrr : env.render_response with _ | r <;>
    rcases ht : fw.time.should_do_tick <;>
    simp_all [next_state, yieldStage, StageDiscriminants.fromStage] <;>
    simp [← h]

/-- A run that starts anywhere but `Initialize` never starts the render
thread. -/
theorem run_no_thread_start (es : List Env) : ∀ fw : Framework,
    fw.current_stage ≠ StageDiscriminants.Initialize →
    countEffect Effect.runRenderThread (run fw es).2 = 0 := by
  induction es with
  | nil => intro fw _; simp [run, countEffect]
  | cons e es ih =>
    intro fw h
    have hE : countEffect Effect.runRenderThread (next_state fw e).2.2 = 0 := by
      cases hs : fw.current_stage <;>
        rcases hwm : e.window_message with _ | m <;>
        rcases hrr : e.render_response with _ | r <;>
        rcases ht : fw.time.should_do_tick <;>
        simp_all [next_state, yieldStage, countEffect]
    simp only [run, countEffect_append, hE,
      ih (next_state fw e).2.1 (next_state_target_ne_initial fw e)]

/-- Claim C10: `Initialize` is the initial stage only — no advance targets
it and no advance yields it; from a fresh framework, the first advance
yields the `Start` phase while starting the render thread, and over any
run the render thread is started at most once (exactly once as soon as one
advance happens). -/
theorem claim10_initial_stage_once (strategy : Polling) (es : List Env) :
    (∀ fw env, (next_state fw env).2.1.current_stage ≠ StageDiscriminants.Initialize) ∧
    (∀ fw env s, (next_state fw env).1 = Option.some s → s ≠ Stage.Initialize) ∧
    (∀ env, (next_state (Framework.new strategy) env).1 = Option.some Stage.Start ∧
       Effect.runRenderThread ∈ (next_state (Framework.new strategy) env).2.2) ∧
    countEffect Effect.runRenderThread (run (Framework.new strategy) es).2 =
      min es.length 1 := by
  refine ⟨next_state_target_ne_initial, next_state_never_yields_initial, ?_, ?_⟩
  · intro env
    constructor <;> simp [next_state, Framework.new, yieldStage]
  · cases es with
    | nil => simp [run, countEffect]
    | cons e es =>
      have h1 : (next_state (Framework.new strategy) e).2.2 = [Effect.runRenderThread] := by
        simp [next_state, Framework.new, yieldStage]
      have h2 : (next_state (Framework.new strategy) e).2.1.current_stage ≠
          StageDiscriminants.Initialize :=
        next_state_target_ne_initial (Framework.new strategy) e
      simp only [run, countEffect_append, h1,
        run_no_thread_start es (next_state (Framework.new strategy) e).2.1 h2]
      simp [countEffect]

/-- Witness for C1 at the concrete state whose previous phase is `Start`. -/
theorem claim1_witness :
    ∃ s, (next_state fwStart (deltaEnv 0)).1 = Option.some s ∧
      (next_state fwStart (deltaEnv 0)).2.1.current_stage = StageDiscriminants.fromStage s ∧
      cyclicNext fwStart.current_stage (StageDiscriminants.fromStage s) :=
  claim1_cyclic_order fwStart (deltaEnv 0) (WindowMessage.Event 0)
    (RenderLoopMessage.Response 0) rfl rfl (by decide) (by decide) (by decide)

/-- Witness for C2 at the concrete `Update` state with a disconnected
peer. -/
theorem claim2_witness :
    (envPeerGone.render_response = Option.none →
      next_state fwUpdate envPeerGone =
        (Option.some Stage.Exiting,
         { fwUpdate with current_stage := StageDiscriminants.Exiting },
         [Effect.sendRenderData])) ∧
    (∀ r, envPeerGone.render_response = Option.some r →
      next_state fwUpdate envPeerGone =
        (Option.some (Stage.EndFrame fwUpdate.current_message r),
         { fwUpdate with current_stage := StageDiscriminants.EndFrame },
         [Effect.sendRenderData])) :=
  claim2_update_mailbox fwUpdate envPeerGone rfl

/-- Witness for C3 at the concrete `Exiting` state. -/
theorem claim3_witness :
    next_state fwExiting (deltaEnv 0) =
      (Option.some Stage.ExitLoop,
       { fwExiting with current_stage := StageDiscriminants.ExitLoop },
       [Effect.sendExit, Effect.barrierWait, Effect.joinRenderThread]) ∧
    (∀ env2, next_state { fwExiting with current_stage := StageDiscriminants.ExitLoop } env2 =
       (Option.none, { fwExiting with current_stage := StageDiscriminants.ExitLoop }, [])) :=
  claim3_exiting_shutdown fwExiting (deltaEnv 0) rfl

/-- Witness for C4 at the concrete `EarlyUpdate` state. -/
theorem claim4_witness :
    ((next_state fwEarly (deltaEnv 0)).2.1.current_stage = StageDiscriminants.FixedUpdate ↔
       fwEarly.time.should_do_tick = true) ∧
    (fwEarly.time.should_do_tick = true →
      (next_state fwEarly (deltaEnv 0)).2.1.time.accum =
        fwEarly.time.accum - fwEarly.time.fixedStep ∧
      (next_state fwEarly (deltaEnv 0)).2.1.time.tickCount = fwEarly.time.tickCount + 1) ∧
    (fwEarly.time.should_do_tick = false →
      (next_state fwEarly (deltaEnv 0)).2.1.current_stage = StageDiscriminants.Update ∧
      (next_state fwEarly (deltaEnv 0)).2.1.time = fwEarly.time) :=
  claim4_fixed_tick_consumption fwEarly (deltaEnv 0) (Or.inl rfl)

/-- Witness for C5 at the concrete `Start` state with the window closed. -/
theorem claim5_witness :
    (next_state fwStart envClosed).1 = Option.some Stage.Exiting ∧
    (next_state fwStart envClosed).2.1.current_stage = StageDiscriminants.Exiting ∧
    (next_state (next_state fwStart envClosed).2.1 (deltaEnv 0)).1 =
      Option.some Stage.ExitLoop ∧
    Effect.joinRenderThread ∈ (next_state (next_state fwStart envClosed).2.1 (deltaEnv 0)).2.2 ∧
    (next_state (next_state (next_state fwStart envClosed).2.1 (deltaEnv 0)).2.1
      (deltaEnv 0)).1 = Option.none :=
  claim5_window_close_shutdown fwStart envClosed (deltaEnv 0) (deltaEnv 0) (Or.inl rfl) rfl

/-- Witness for C6 on the shortest complete run (open, close, shut down). -/
theorem claim6_witness :
    countEffect Effect.barrierWait (run (Framework.new Polling.Poll) esShutdown).2 =
      renderLoopBarrierCalls
        (sentMessages (run (Framework.new Polling.Poll) esShutdown).2) :=
  claim6_barrier_parity Polling.Poll esShutdown (by decide) (by decide)

/-- Witness for C7 (amended) at the concrete `Update` state with a
disconnected peer. -/
theorem claim7_witness :
    ((fwUpdate.current_stage = StageDiscriminants.Start ∨
        fwUpdate.current_stage = StageDiscriminants.EndFrame) ∧
      envPeerGone.window_message = Option.none) ∨
    (fwUpdate.current_stage = StageDiscriminants.Update ∧
      envPeerGone.render_response = Option.none) :=
  claim7_exiting_causes fwUpdate envPeerGone (by decide)

/-- Witness for C9 at the concrete terminal state. -/
theorem claim9_witness :
    Framework.next fwExitLoop (deltaEnv 0) = (Option.none, fwExitLoop, []) ∧
    (Framework.next fwExitLoop (deltaEnv 0)).2.1.current_stage =
      StageDiscriminants.ExitLoop :=
  claim9_exhausted_total fwExitLoop (deltaEnv 0) rfl

/-- Witness for C10 on a one-advance run of a fresh framework. -/
theorem claim10_witness :
    ((next_state (Framework.new Polling.Poll) (deltaEnv 0)).1 = Option.some Stage.Start ∧
      Effect.runRenderThread ∈ (next_state (Framework.new Polling.Poll) (deltaEnv 0)).2.2) ∧
    countEffect Effect.runRenderThread (run (Framework.new Polling.Poll) [deltaEnv 0]).2 =
      min [deltaEnv 0].length 1 ∧
    Stage.Start ≠ Stage.Initialize :=
  ⟨(claim10_initial_stage_once Polling.Poll [deltaEnv 0]).2.2.1 (deltaEnv 0),
   (claim10_initial_stage_once Polling.Poll [deltaEnv 0]).2.2.2,
   (claim10_initial_stage_once Polling.Poll [deltaEnv 0]).2.1
     (Framework.new Polling.Poll) (deltaEnv 0) Stage.Start
     ((claim10_initial_stage_once Polling.Poll [deltaEnv 0]).2.2.1 (deltaEnv 0)).1⟩

end Ookami
